import Mathlib

/-!
Verification of the library-lending service: the inventory transaction
manager (borrow/return in `api_endpoint/library.py`), the book CRUD
operations that touch `quantity` (`api_endpoint/books.py`), the circuit
breaker supervisor (`api_endpoint/circuit_breaker.py`, whose state machine
lives in the external pybreaker library), and the authenticating gateway
(`authentication-gateway/app.py`).

The database state is embedded shallowly: tables are lists of records,
each SQL statement is a function on that state, a transaction keeps the
original state on hand so that rollback returns it unchanged.  Timestamps
(`datetime.now()`) are abstract `Nat` values passed in as `now`.
-/

/-- Row of the `books` table (`init_db.py`): `id` is the primary key and the
DDL carries `CHECK(quantity >= 0)`; `quantity` is modelled as `Int` so that
non-negativity is a provable invariant, not a typing artifact. -/
structure Book where
  id : Nat
  title : String
  author : String
  quantity : Int
deriving Repr, DecidableEq

/-- Row of the `borrow_records` table (`init_db.py`): `return_date` is
nullable, set on return. -/
structure BorrowRecord where
  id : Nat
  user_id : Nat
  book_id : Nat
  borrow_date : Nat
  return_date : Option Nat
deriving Repr, DecidableEq

/-- The database state seen by the service: the three tables plus the
auto-increment counters for the two primary keys the code lets the engine
assign. Users are kept as their ids (only `SELECT id FROM users WHERE id = :1`
touches them in the code under verification). -/
structure DBState where
  users : List Nat
  books : List Book
  records : List BorrowRecord
  nextRecordId : Nat
  nextBookId : Nat
deriving Repr, DecidableEq

/-- Body of a JSON response built by `create_response` in `helper.py`.
Success messages are f-strings naming a title in the code; they are kept as
constructors carrying the title so the payload provably names it. -/
inductive RespBody where
  | errorMsg (msg : String)
  | borrowedMsg (title : String)
  | returnedMsg (title : String)
  | bookPayload (b : Book)
  | deletedMsg (book_id : Nat)
deriving Repr, DecidableEq

/-- A response: body plus HTTP status code, as produced by
`create_response(data, status_code)`. -/
structure Response where
  body : RespBody
  status : Nat
deriving Repr, DecidableEq

/-- Embedding of `SELECT id FROM users WHERE id = :1` followed by
`fetchone()`: true when a row comes back. -/
def selectUserExists (uid : Nat) (s : DBState) : Bool :=
  s.users.contains uid

/-- Embedding of `SELECT title FROM books WHERE id = :1` / `SELECT * FROM
books WHERE id = :1` followed by `fetchone()`. -/
def findBook (bid : Nat) (s : DBState) : Option Book :=
  s.books.find? (fun b => b.id = bid)

/-- The quantity column of book `bid`, read back from a state. -/
def quantityOf (bid : Nat) (s : DBState) : Option Int :=
  (findBook bid s).map Book.quantity

/-- Embedding of the conditional decrement
`UPDATE books SET quantity = quantity - 1 WHERE id = :1 AND quantity > 0`:
returns the updated table together with `cursor.rowcount`, the number of
rows the WHERE clause matched. -/
def updateDecrementIfPositive (bid : Nat) (books : List Book) :
    List Book × Nat :=
  (books.map (fun b =>
      if b.id = bid ∧ 0 < b.quantity then
        { b with quantity := b.quantity - 1 }
      else b),
   (books.filter (fun b => decide (b.id = bid ∧ 0 < b.quantity))).length)

/-- Embedding of `INSERT INTO borrow_records (user_id, book_id, borrow_date)
VALUES (:1, :2, :3)` with engine-assigned id and NULL `return_date`. -/
def insertBorrowRecord (uid bid now : Nat) (s : DBState) : DBState :=
  { s with
      records := s.records ++ [⟨s.nextRecordId, uid, bid, now, none⟩],
      nextRecordId := s.nextRecordId + 1 }

/-- Embedding of `borrow_book` in `api_endpoint/library.py` (identical in
`app.py`), for a request whose JSON already contains `user_id` and
`book_id`.  The checks run in source order: user exists, book exists,
conditional decrement; `rowcount == 0` rolls the transaction back (the
returned state is the original one) and answers out-of-stock; otherwise the
borrow record is inserted and both statements commit together. -/
def borrow_book (uid bid now : Nat) (s : DBState) : DBState × Response :=
  if selectUserExists uid s = false then
    (s, ⟨.errorMsg "User not found", 404⟩)
  else
    match findBook bid s with
    | none => (s, ⟨.errorMsg "Book not found", 404⟩)
    | some bk =>
      let upd := updateDecrementIfPositive bid s.books
      if upd.2 = 0 then
        (s, ⟨.errorMsg "Book is out of stock", 400⟩)
      else
        (insertBorrowRecord uid bid now { s with books := upd.1 },
         ⟨.borrowedMsg bk.title, 200⟩)

/-- Embedding of `SELECT id FROM borrow_records WHERE user_id = :1 AND
book_id = :2 AND return_date IS NULL` followed by `fetchone()`; the SELECT
carries no ORDER BY, the embedding resolves the engine's free choice to the
first row in table order. -/
def findActiveRecord (uid bid : Nat) (s : DBState) : Option BorrowRecord :=
  s.records.find? (fun r =>
    r.user_id = uid ∧ r.book_id = bid ∧ r.return_date = none)

/-- Embedding of `UPDATE books SET quantity = quantity + 1 WHERE id = :1`. -/
def updateIncrementQuantity (bid : Nat) (books : List Book) : List Book :=
  books.map (fun b =>
    if b.id = bid then { b with quantity := b.quantity + 1 } else b)

/-- Embedding of `UPDATE borrow_records SET return_date = :1 WHERE id = :2`. -/
def updateSetReturnDate (rid now : Nat) (records : List BorrowRecord) :
    List BorrowRecord :=
  records.map (fun r =>
    if r.id = rid then { r with return_date := some now } else r)

/-- Embedding of `return_book` in `api_endpoint/library.py` (identical in
`app.py`): locate the active record, else error without touching the state;
otherwise read the title (falling back to "Unknown Book" when the book row
is gone), increment the quantity, stamp the record's `return_date`, and
commit both updates together. -/
def return_book (uid bid now : Nat) (s : DBState) : DBState × Response :=
  match findActiveRecord uid bid s with
  | none =>
    (s, ⟨.errorMsg "No active borrow record found for this user and book",
         400⟩)
  | some r0 =>
    let book_title :=
      match findBook bid s with
      | some bk => bk.title
      | none => "Unknown Book"
    let s1 := { s with books := updateIncrementQuantity bid s.books }
    let s2 := { s1 with records := updateSetReturnDate r0.id now s1.records }
    (s2, ⟨.returnedMsg book_title, 200⟩)

/-- Embedding of `add_book` in `api_endpoint/books.py` after field
validation: the INSERT hits the DDL constraint `CHECK(quantity >= 0)`, so a
negative quantity raises a database error, is rolled back, and answers 500;
otherwise the row is inserted with the engine-assigned id and committed. -/
def add_book (title author : String) (q : Int) (s : DBState) :
    DBState × Response :=
  if q < 0 then
    (s, ⟨.errorMsg "Database error: check constraint violated", 500⟩)
  else
    ({ s with
        books := s.books ++ [⟨s.nextBookId, title, author, q⟩],
        nextBookId := s.nextBookId + 1 },
     ⟨.bookPayload ⟨s.nextBookId, title, author, q⟩, 201⟩)

/-- Embedding of `update_book` in `api_endpoint/books.py`: 404 when the book
is absent, 400 when the body is empty (a falsy `data`: all three fields
missing), otherwise each field defaults to its existing value and the UPDATE
runs; a negative quantity violates `CHECK(quantity >= 0)` and the statement
fails without committing. -/
def update_book (bid : Nat) (title? author? : Option String)
    (q? : Option Int) (s : DBState) : DBState × Response :=
  match findBook bid s with
  | none => (s, ⟨.errorMsg "Book not found", 404⟩)
  | some bk =>
    if title? = none ∧ author? = none ∧ q? = none then
      (s, ⟨.errorMsg "Request body cannot be empty", 400⟩)
    else
      let t := title?.getD bk.title
      let a := author?.getD bk.author
      let q := q?.getD bk.quantity
      if q < 0 then
        (s, ⟨.errorMsg "Database error: check constraint violated", 500⟩)
      else
        ({ s with
            books := s.books.map (fun b =>
              if b.id = bid then
                { b with title := t, author := a, quantity := q }
              else b) },
         ⟨.bookPayload ⟨bid, t, a, q⟩, 200⟩)

/-- Embedding of `delete_book`: `DELETE FROM books WHERE id = :1`; zero rows
affected answers 404, otherwise the delete commits and (per the DDL's
`ON DELETE CASCADE`) the book's borrow records go with it. -/
def delete_book (bid : Nat) (s : DBState) : DBState × Response :=
  if (s.books.filter (fun b => decide (b.id = bid))).length = 0 then
    (s, ⟨.errorMsg "Book not found", 404⟩)
  else
    ({ s with
        books := s.books.filter (fun b => !decide (b.id = bid)),
        records := s.records.filter (fun r => !decide (r.book_id = bid)) },
     ⟨.deletedMsg bid, 200⟩)

/-- The initial database contents created by `init_db.py` (timestamps in the
sample borrow records are abstracted to the numbers 0..3, preserving order
and nullness; the apostrophe of one sample title is dropped). -/
def initState : DBState :=
  { users := [1, 2, 3],
    books :=
      [⟨1, "The Hobbit", "J.R.R. Tolkien", 5⟩,
       ⟨2, "1984", "George Orwell", 3⟩,
       ⟨3, "Dune", "Frank Herbert", 0⟩,
       ⟨4, "The Hitchhikers Guide to the Galaxy", "Douglas Adams", 10⟩],
    records :=
      [⟨1, 1, 1, 0, some 1⟩,
       ⟨2, 2, 2, 2, none⟩,
       ⟨3, 1, 4, 3, none⟩],
    nextRecordId := 4,
    nextBookId := 5 }

/-- States reachable from the initialized database by the operations that
touch book quantities: borrow, return, book create/update, and delete. -/
inductive Reachable : DBState → Prop where
  | init : Reachable initState
  | borrow (uid bid now : Nat) {s : DBState} :
      Reachable s → Reachable (borrow_book uid bid now s).1
  | ret (uid bid now : Nat) {s : DBState} :
      Reachable s → Reachable (return_book uid bid now s).1
  | create (t a : String) (q : Int) {s : DBState} :
      Reachable s → Reachable (add_book t a q s).1
  | update (bid : Nat) (t? a? : Option String) (q? : Option Int)
      {s : DBState} :
      Reachable s → Reachable (update_book bid t? a? q? s).1
  | del (bid : Nat) {s : DBState} :
      Reachable s → Reachable (delete_book bid s).1

/-!
Circuit breaker supervisor.  The per-breaker configuration, the name map of
the `circuit_breaker_check` decorator and `get_breaker_status` are in
`api_endpoint/circuit_breaker.py`; the state machine itself is provided by
the external pybreaker `CircuitBreaker` class, which is not part of this
repository, and is therefore modelled from the spec.
-/

/-- States of a breaker: closed, open, half-open. -/
inductive BreakerState where
  | closed
  | opened
  | halfOpen
deriving Repr, DecidableEq

/-- A circuit breaker: configuration (`fail_max` alias failure_threshold,
`reset_timeout`) plus mutable state (`state`, `fail_counter`, `opened_at`). -/
structure Breaker where
  failMax : Nat
  resetTimeout : Nat
  state : BreakerState
  failCount : Nat
  openedAt : Nat
deriving Repr, DecidableEq

/-- Outcome of a guarded call: the operation ran and succeeded; the
operation ran and its own error was re-raised; or the open breaker rejected
the call (`CircuitBreakerError`) without running it. -/
inductive CallOutcome where
  | success
  | operationError
  | breakerOpenError
deriving Repr, DecidableEq

/-- Result of a guarded call: the breaker afterwards, the outcome, and
whether the underlying operation was actually invoked. -/
structure CallResult where
  breaker : Breaker
  outcome : CallOutcome
  invoked : Bool
deriving Repr, DecidableEq

/-- Modelled from the spec: recording a failure (pybreaker is not under
src/).  The failure count increments; reaching `failure_threshold`
transitions the breaker to open and records `opened_at = now()`. -/
def recordFailure (b : Breaker) (now : Nat) : Breaker :=
  if b.failMax ≤ b.failCount + 1 then
    { b with state := .opened, failCount := b.failCount + 1, openedAt := now }
  else
    { b with failCount := b.failCount + 1 }

/-- Modelled from the spec: `CircuitBreaker.call` of the external pybreaker
library, which is not under src/.  Closed: the call runs; success resets the
failure count, failure records one (opening at the threshold).  Open before
`reset_timeout` has elapsed since `opened_at`: reject immediately with the
distinct breaker-open error, without invoking the operation.  Open with the
timeout elapsed (equivalently, half-open): exactly this one trial call runs;
success closes the breaker and resets the count, failure reopens it and
restarts the cooldown.  The operation itself is abstracted to whether it
succeeds (`opSucceeds`). -/
def breakerCall (b : Breaker) (now : Nat) (opSucceeds : Bool) : CallResult :=
  match b.state with
  | .closed =>
    if opSucceeds then
      ⟨{ b with failCount := 0 }, .success, true⟩
    else
      ⟨recordFailure b now, .operationError, true⟩
  | .opened =>
    if now < b.openedAt + b.resetTimeout then
      ⟨b, .breakerOpenError, false⟩
    else
      if opSucceeds then
        ⟨{ b with state := .closed, failCount := 0 }, .success, true⟩
      else
        ⟨{ b with state := .opened, failCount := b.failCount + 1, openedAt := now }, .operationError, true⟩
  | .halfOpen =>
    if opSucceeds then
      ⟨{ b with state := .closed, failCount := 0 }, .success, true⟩
    else
      ⟨{ b with state := .opened, failCount := b.failCount + 1, openedAt := now }, .operationError, true⟩

/-- The `db_breaker` of `circuit_breaker.py`: `fail_max=5`,
`reset_timeout=60`, initially closed with no failures. -/
def db_breaker : Breaker := ⟨5, 60, .closed, 0, 0⟩

/-- The `redis_breaker`: `fail_max=5`, `reset_timeout=60`. -/
def redis_breaker : Breaker := ⟨5, 60, .closed, 0, 0⟩

/-- The `auth_breaker`: `fail_max=3`, `reset_timeout=45`. -/
def auth_breaker : Breaker := ⟨3, 45, .closed, 0, 0⟩

/-- The `external_api_breaker`: `fail_max=5`, `reset_timeout=60`. -/
def external_api_breaker : Breaker := ⟨5, 60, .closed, 0, 0⟩

/-- Identity of a registered breaker, keyed by its `name` field. -/
inductive BreakerId where
  | database
  | redis
  | authentication
  | external_api
deriving Repr, DecidableEq

/-- The process-wide registry holding the four module-level breakers. -/
structure BreakerRegistry where
  database : Breaker
  redis : Breaker
  authentication : Breaker
  external_api : Breaker
deriving Repr, DecidableEq

/-- The registry as created at import time of `circuit_breaker.py`. -/
def initRegistry : BreakerRegistry :=
  ⟨db_breaker, redis_breaker, auth_breaker, external_api_breaker⟩

/-- Read one breaker out of the registry. -/
def BreakerRegistry.get (r : BreakerRegistry) : BreakerId → Breaker
  | .database => r.database
  | .redis => r.redis
  | .authentication => r.authentication
  | .external_api => r.external_api

/-- Write one breaker back into the registry. -/
def BreakerRegistry.put (r : BreakerRegistry) (i : BreakerId) (b : Breaker) :
    BreakerRegistry :=
  match i with
  | .database => { r with database := b }
  | .redis => { r with redis := b }
  | .authentication => { r with authentication := b }
  | .external_api => { r with external_api := b }

/-- Embedding of `breaker_map.get(breaker_name, db_breaker)` in
`circuit_breaker_check`: the four recognized keys select their breaker, any
other argument silently falls back to the database breaker. -/
def breaker_map_get (breaker_name : String) : BreakerId :=
  if breaker_name = "db" then .database
  else if breaker_name = "redis" then .redis
  else if breaker_name = "auth" then .authentication
  else if breaker_name = "external_api" then .external_api
  else .database

/-- Embedding of the `circuit_breaker_check(breaker_name)` decorator applied
to a call: the selected breaker guards the wrapped function via
`selected_breaker.call(f, ...)`; the surrounding `try/except` only logs and
re-raises, so the outcome passes through unchanged. -/
def circuit_breaker_check (breaker_name : String) (r : BreakerRegistry)
    (now : Nat) (opSucceeds : Bool) :
    BreakerRegistry × CallOutcome × Bool :=
  let i := breaker_map_get breaker_name
  let res := breakerCall (r.get i) now opSucceeds
  (r.put i res.breaker, res.outcome, res.invoked)

/-- One entry of the status map: the breaker's `state` and `fail_counter`. -/
structure BreakerStatusEntry where
  state : BreakerState
  fail_counter : Nat
deriving Repr, DecidableEq

/-- Embedding of `get_breaker_status` in `circuit_breaker.py`: it only reads
the four registered breakers, so the registry is returned untouched next to
the per-breaker map. -/
def get_breaker_status (r : BreakerRegistry) :
    BreakerRegistry × List (String × BreakerStatusEntry) :=
  (r,
   [("database", ⟨r.database.state, r.database.failCount⟩),
    ("redis", ⟨r.redis.state, r.redis.failCount⟩),
    ("authentication", ⟨r.authentication.state, r.authentication.failCount⟩),
    ("external_api", ⟨r.external_api.state, r.external_api.failCount⟩)])

/-- HTTP methods accepted by the gateway's catch-all route. -/
inductive HttpMethod where
  | GET
  | POST
  | PUT
  | DELETE
  | PATCH
deriving Repr, DecidableEq

/-- Modelled from the spec: the route registration that exposes the breaker
status map over HTTP is not under src/ (the application factory's imports
`auth`, `users_v2`, `library_v2` are missing from src/); the spec states
`GET /<breaker-status-path>` serves `get_breaker_status`. -/
def breakerStatusRouteMethod : HttpMethod := .GET

/-!
Authenticating gateway, `authentication-gateway/app.py`.  The PyJWT
`jwt.decode` call is external; its verdict on a token string is abstracted
to a parameter `decode`, and the upstream HTTP hop (`requests.request`) to a
parameter `upstream`.
-/

/-- Verdict of `jwt.decode(token, SECRET_KEY, algorithms=[HS256])`: it
returns normally, raises `ExpiredSignatureError`, or raises some other
`InvalidTokenError` (bad signature, malformed claims). -/
inductive TokenVerdict where
  | valid
  | expiredError (msg : String)
  | invalidError (msg : String)
deriving Repr, DecidableEq

/-- The two PyJWT exception kinds the gateway distinguishes
(`ExpiredSignatureError` is caught before the more general
`InvalidTokenError`). -/
inductive JwtError where
  | expiredSignature (msg : String)
  | invalidToken (msg : String)
deriving Repr, DecidableEq

/-- Embedding of Python `auth_header.startswith("Bearer ")`: the string has
"Bearer " as a prefix (stated over the character lists so it computes by
structural recursion). -/
def startsWithBearer (h : String) : Bool :=
  "Bearer ".data.isPrefixOf h.data

/-- Embedding of `validate_jwt(auth_header)`: a missing header or one that
does not start with "Bearer " raises `InvalidTokenError("Missing or
malformed Authorization header")`; otherwise the token is
`auth_header.split(" ")[1]` and `jwt.decode` settles it. -/
def validate_jwt (decode : String → TokenVerdict)
    (auth_header : Option String) : Except JwtError Bool :=
  match auth_header with
  | none => .error (.invalidToken "Missing or malformed Authorization header")
  | some h =>
    if startsWithBearer h then
      match decode ((h.splitOn " ").getD 1 "") with
      | .valid => .ok true
      | .expiredError m => .error (.expiredSignature m)
      | .invalidError m => .error (.invalidToken m)
    else
      .error (.invalidToken "Missing or malformed Authorization header")

/-- The `PUBLIC_PATHS` allow-list of the gateway (Flask paths carry no
leading slash). -/
def PUBLIC_PATHS : List String :=
  ["metrics", "health", "api/v1/register", "api/v1/login"]

/-- The headers the gateway never copies from the upstream response. -/
def excluded_headers : List String :=
  ["content-encoding", "content-length", "transfer-encoding", "connection"]

/-- An incoming request as the gateway sees it: path (no leading slash),
method, headers, parsed query parameters (`request.args`), raw body bytes
(`request.get_data()`), abstracted to a string. -/
structure GatewayRequest where
  path : String
  method : HttpMethod
  headers : List (String × String)
  query : List (String × String)
  body : String
deriving Repr, DecidableEq

/-- The outbound request of `requests.request(...)`: target url, method,
forwarded headers, body (`data`), query parameters (`params`). -/
structure ForwardedRequest where
  url : String
  method : HttpMethod
  headers : List (String × String)
  data : String
  params : List (String × String)
deriving Repr, DecidableEq

/-- What the upstream hop yields: a response (status, raw headers, streamed
body chunks) or a `requests.exceptions.RequestException` (connection failure
or timeout). -/
inductive UpstreamResult where
  | response (status : Nat) (headers : List (String × String))
      (chunks : List String)
  | requestException (msg : String)
deriving Repr, DecidableEq

/-- Body of the gateway's own response: the two 401 auth-error payloads, the
streamed upstream body, or the 503 connection-error payload. -/
inductive GwBody where
  | tokenExpired (msg : String)
  | tokenInvalid (msg : String)
  | streamed (chunks : List String)
  | upstreamConnectError (msg : String)
deriving Repr, DecidableEq

/-- The gateway's response to the client. -/
structure GwResponse where
  status : Nat
  headers : List (String × String)
  body : GwBody
deriving Repr, DecidableEq

/-- Embedding of `request.headers.get(name)`. -/
def headerGet (hs : List (String × String)) (name : String) :
    Option String :=
  (hs.find? (fun kv => kv.1 = name)).map Prod.snd

/-- Embedding of the gateway's catch-all route: skip the token check for
allow-listed paths, otherwise validate and, on failure, answer 401 without
contacting upstream; then build `FORWARD_URL/path`, forward headers minus
`Host`, body and query unchanged, and either relay the upstream status with
the transport-framing headers stripped and the body streamed, or answer 503
on a `RequestException`.  The first component records the upstream request
actually issued (`none`: upstream was never contacted). -/
def gateway (forward_url : String) (decode : String → TokenVerdict)
    (upstream : ForwardedRequest → UpstreamResult) (req : GatewayRequest) :
    Option ForwardedRequest × GwResponse :=
  let authFailure : Option JwtError :=
    if req.path ∈ PUBLIC_PATHS then none
    else
      match validate_jwt decode (headerGet req.headers "Authorization") with
      | .ok _ => none
      | .error e => some e
  match authFailure with
  | some (.expiredSignature m) => (none, ⟨401, [], .tokenExpired m⟩)
  | some (.invalidToken m) => (none, ⟨401, [], .tokenInvalid m⟩)
  | none =>
    let fwd : ForwardedRequest :=
      { url := forward_url ++ "/" ++ req.path,
        method := req.method,
        headers := req.headers.filter (fun kv => kv.1.toLower != "host"),
        data := req.body,
        params := req.query }
    match upstream fwd with
    | .response st hs chunks =>
      (some fwd,
       ⟨st, hs.filter (fun kv => !excluded_headers.contains kv.1.toLower),
        .streamed chunks⟩)
    | .requestException m =>
      (some fwd, ⟨503, [], .upstreamConnectError m⟩)

/-!
Helper lemmas about the embedded SQL statements.
-/

/-- A map whose function preserves the id column commutes with the primary
key lookup. -/
theorem find?_books_map (bid : Nat) (f : Book → Book)
    (hf : ∀ b, (f b).id = b.id) (l : List Book) :
    (l.map f).find? (fun b => decide (b.id = bid)) =
      (l.find? (fun b => decide (b.id = bid))).map f := by
  rw [List.find?_map]
  have hpred : ((fun b => decide (b.id = bid)) ∘ f) =
      (fun b : Book => decide (b.id = bid)) := by
    funext b
    show decide ((f b).id = bid) = decide (b.id = bid)
    rw [hf b]
  rw [hpred]

/-- The conditional decrement changes only the quantity column. -/
theorem decrement_preserves_id (bid : Nat) (b : Book) :
    ((fun b => if b.id = bid ∧ 0 < b.quantity then
        { b with quantity := b.quantity - 1 } else b) b).id = b.id := by
  dsimp only
  split <;> rfl

/-- The increment changes only the quantity column. -/
theorem increment_preserves_id (bid : Nat) (b : Book) :
    ((fun b => if b.id = bid then
        { b with quantity := b.quantity + 1 } else b) b).id = b.id := by
  dsimp only
  split <;> rfl

/-- Under the PRIMARY KEY constraint (pairwise distinct ids), any row whose
id matches the looked-up key is the row the lookup returned. -/
theorem books_find_unique {bid : Nat} :
    ∀ {l : List Book} {bk : Book},
      l.Pairwise (fun a b => a.id ≠ b.id) →
      l.find? (fun b => decide (b.id = bid)) = some bk →
      ∀ b ∈ l, b.id = bid → b = bk
  | [], _, _, hf => by simp at hf
  | c :: t, bk, hp, hf => by
    rcases List.pairwise_cons.mp hp with ⟨hhead, htail⟩
    intro b hb hbid
    rcases List.mem_cons.mp hb with rfl | hbt
    · rw [List.find?_cons_of_pos _ (by simpa using hbid)] at hf
      exact Option.some.inj hf
    · by_cases hc : c.id = bid
      · exact absurd (hc.trans hbid.symm) (hhead b hbt)
      · rw [List.find?_cons_of_neg _ (by simpa using hc)] at hf
        exact books_find_unique htail hf b hbt hbid

/-- C1: for a borrow request whose user and book both exist, a strictly
positive quantity is decremented by exactly 1 through the conditional
update, a borrow record stamped `borrow_date = now` is inserted, both land
in the committed state, and the response names the borrowed title with
status 200; a zero quantity makes the conditional update match no row, the
transaction rolls back to the untouched state (no record created, quantity
unchanged) and the response is the out-of-stock error. -/
theorem borrow_book_transaction_spec (s : DBState) (uid bid now : Nat)
    (bk : Book)
    (hp : s.books.Pairwise (fun a b => a.id ≠ b.id))
    (hu : selectUserExists uid s = true)
    (hb : findBook bid s = some bk) :
    (0 < bk.quantity →
      borrow_book uid bid now s =
        ({ s with
            books := (updateDecrementIfPositive bid s.books).1,
            records := s.records ++ [⟨s.nextRecordId, uid, bid, now, none⟩],
            nextRecordId := s.nextRecordId + 1 },
         ⟨.borrowedMsg bk.title, 200⟩) ∧
      quantityOf bid (borrow_book uid bid now s).1 =
        some (bk.quantity - 1)) ∧
    (bk.quantity = 0 →
      borrow_book uid bid now s =
        (s, ⟨.errorMsg "Book is out of stock", 400⟩)) := by
  have hb' : s.books.find? (fun b => decide (b.id = bid)) = some bk := hb
  have hbkid : bk.id = bid := by simpa using List.find?_some hb'
  have hbkmem : bk ∈ s.books := List.mem_of_find?_eq_some hb'
  constructor
  · intro hq
    have hrc : (updateDecrementIfPositive bid s.books).2 ≠ 0 := by
      unfold updateDecrementIfPositive
      dsimp only
      intro h0
      rw [List.length_eq_zero, List.filter_eq_nil_iff] at h0
      exact (h0 bk hbkmem) (by simp [hbkid, hq])
    have hmain : borrow_book uid bid now s =
        ({ s with
            books := (updateDecrementIfPositive bid s.books).1,
            records := s.records ++ [⟨s.nextRecordId, uid, bid, now, none⟩],
            nextRecordId := s.nextRecordId + 1 },
         ⟨.borrowedMsg bk.title, 200⟩) := by
      unfold borrow_book
      rw [hu]
      simp only [Bool.true_eq_false, if_false]
      rw [hb]
      simp only [if_neg hrc]
      rfl
    refine ⟨hmain, ?_⟩
    rw [hmain]
    show quantityOf bid _ = _
    unfold quantityOf findBook
    show ((s.books.map _).find? _).map Book.quantity = _
    rw [find?_books_map bid _ (fun b => decrement_preserves_id bid b), hb']
    simp only [Option.map_some']
    rw [if_pos ⟨hbkid, hq⟩]
  · intro hq0
    have hrc : (updateDecrementIfPositive bid s.books).2 = 0 := by
      unfold updateDecrementIfPositive
      dsimp only
      rw [List.length_eq_zero, List.filter_eq_nil_iff]
      intro b hbmem hcond
      rw [decide_eq_true_eq] at hcond
      have hbk : b = bk := books_find_unique hp hb' b hbmem hcond.1
      rw [hbk, hq0] at hcond
      exact absurd hcond.2 (by norm_num)
    unfold borrow_book
    rw [hu]
    simp only [Bool.true_eq_false, if_false]
    rw [hb]
    simp only [if_pos hrc]

/-- C3: a return request with no active borrow record for the pair answers
the "no active borrow record" error and leaves the whole state untouched:
no quantity changes, no record is created or updated. -/
theorem return_book_no_active_record (s : DBState) (uid bid now : Nat)
    (h : findActiveRecord uid bid s = none) :
    return_book uid bid now s =
      (s, ⟨.errorMsg "No active borrow record found for this user and book",
           400⟩) := by
  unfold return_book
  rw [h]

/-- C4: a return request with an active borrow record increments the book's
quantity by exactly 1 and stamps `return_date = now` on that record, both in
the one committed state, and answers a success payload naming the returned
book's title; the only other outcome of return is the no-active-record
error. -/
theorem return_book_active_spec (s : DBState) (uid bid now : Nat)
    (r0 : BorrowRecord) (bk : Book)
    (hr : findActiveRecord uid bid s = some r0)
    (hb : findBook bid s = some bk) :
    (return_book uid bid now s).1 =
      { s with
          books := updateIncrementQuantity bid s.books,
          records := updateSetReturnDate r0.id now s.records } ∧
    quantityOf bid (return_book uid bid now s).1 = some (bk.quantity + 1) ∧
    ({ r0 with return_date := some now } : BorrowRecord) ∈
      (return_book uid bid now s).1.records ∧
    (return_book uid bid now s).2 = ⟨.returnedMsg bk.title, 200⟩ ∧
    (∀ (s' : DBState) (uid' bid' now' : Nat),
      (∃ t, (return_book uid' bid' now' s').2 = ⟨.returnedMsg t, 200⟩) ∨
      (return_book uid' bid' now' s').2 =
        ⟨.errorMsg "No active borrow record found for this user and book",
         400⟩) := by
  have hb' : s.books.find? (fun b => decide (b.id = bid)) = some bk := hb
  have hbkid : bk.id = bid := by simpa using List.find?_some hb'
  have hr' : s.records.find? (fun r => decide (r.user_id = uid ∧
      r.book_id = bid ∧ r.return_date = none)) = some r0 := hr
  have hr0mem : r0 ∈ s.records := List.mem_of_find?_eq_some hr'
  have hmain : return_book uid bid now s =
      ({ s with
          books := updateIncrementQuantity bid s.books,
          records := updateSetReturnDate r0.id now s.records },
       ⟨.returnedMsg bk.title, 200⟩) := by
    unfold return_book
    rw [hr, hb]
  refine ⟨by rw [hmain], ?_, ?_, by rw [hmain], ?_⟩
  · rw [hmain]
    show quantityOf bid _ = _
    unfold quantityOf findBook updateIncrementQuantity
    show ((s.books.map _).find? _).map Book.quantity = _
    rw [find?_books_map bid _ (fun b => increment_preserves_id bid b), hb']
    simp only [Option.map_some']
    rw [if_pos hbkid]
  · rw [hmain]
    show ({ r0 with return_date := some now } : BorrowRecord) ∈
      updateSetReturnDate r0.id now s.records
    unfold updateSetReturnDate
    have : ({ r0 with return_date := some now } : BorrowRecord) =
        (fun r => if r.id = r0.id then { r with return_date := some now }
          else r) r0 := by
      dsimp only
      rw [if_pos rfl]
    rw [this]
    exact List.mem_map_of_mem _ hr0mem
  · intro s' uid' bid' now'
    unfold return_book
    cases hfa : findActiveRecord uid' bid' s' with
    | none => right; rfl
    | some r1 =>
      left
      cases hfb : findBook bid' s' with
      | none => exact ⟨"Unknown Book", rfl⟩
      | some bk1 => exact ⟨bk1.title, rfl⟩

/-- Witness for C1 at concrete inputs: borrowing book 1 ("The Hobbit",
quantity 5) leaves quantity 4; borrowing book 3 ("Dune", quantity 0) answers
out-of-stock and leaves the state untouched. -/
theorem borrow_book_transaction_spec_witness :
    quantityOf 1 (borrow_book 1 1 7 initState).1 = some 4 ∧
    borrow_book 2 3 8 initState =
      (initState, ⟨.errorMsg "Book is out of stock", 400⟩) := by
  constructor
  · have h := (borrow_book_transaction_spec initState 1 1 7
      ⟨1, "The Hobbit", "J.R.R. Tolkien", 5⟩
      (by decide) (by decide) (by rfl)).1 (by decide)
    simpa using h.2
  · exact (borrow_book_transaction_spec initState 2 3 8
      ⟨3, "Dune", "Frank Herbert", 0⟩
      (by decide) (by decide) (by rfl)).2 (by decide)

/-- Witness for C3: user 1 never borrowed book 99, the request errors and
the state is returned unchanged. -/
theorem return_book_no_active_record_witness :
    return_book 1 99 7 initState =
      (initState,
       ⟨.errorMsg "No active borrow record found for this user and book",
        400⟩) :=
  return_book_no_active_record initState 1 99 7 (by rfl)

/-- Witness for C4: user 2 returns book 2 ("1984", quantity 3); afterwards
the quantity reads 4. -/
theorem return_book_active_spec_witness :
    quantityOf 2 (return_book 2 2 9 initState).1 = some 4 := by
  have h := return_book_active_spec initState 2 2 9 ⟨2, 2, 2, 2, none⟩
    ⟨2, "1984", "George Orwell", 3⟩ (by rfl) (by rfl)
  simpa using h.2.1

/-!
Preservation of the non-negativity invariant (C2).
-/

/-- The books table after a borrow: unchanged (any error branch) or with the
conditional decrement applied. -/
theorem borrow_book_books_shape (uid bid now : Nat) (s : DBState) :
    (borrow_book uid bid now s).1.books = s.books ∨
    (borrow_book uid bid now s).1.books =
      s.books.map (fun b =>
        if b.id = bid ∧ 0 < b.quantity then
          { b with quantity := b.quantity - 1 }
        else b) := by
  unfold borrow_book
  by_cases h1 : selectUserExists uid s = false
  · rw [if_pos h1]
    left
    rfl
  · rw [if_neg h1]
    cases hfb : findBook bid s with
    | none => left; rfl
    | some bk =>
      dsimp only
      by_cases h2 : (updateDecrementIfPositive bid s.books).2 = 0
      · rw [if_pos h2]
        left
        rfl
      · rw [if_neg h2]
        right
        rfl

/-- The books table after a return: unchanged or with one increment. -/
theorem return_book_books_shape (uid bid now : Nat) (s : DBState) :
    (return_book uid bid now s).1.books = s.books ∨
    (return_book uid bid now s).1.books =
      updateIncrementQuantity bid s.books := by
  unfold return_book
  cases hfa : findActiveRecord uid bid s with
  | none => left; rfl
  | some r0 => right; rfl

/-- Borrow preserves non-negative quantities. -/
theorem borrow_book_preserves_nonneg (uid bid now : Nat) (s : DBState)
    (h : ∀ b ∈ s.books, 0 ≤ b.quantity) :
    ∀ b ∈ (borrow_book uid bid now s).1.books, 0 ≤ b.quantity := by
  rcases borrow_book_books_shape uid bid now s with he | he <;> rw [he]
  · exact h
  · intro b hb
    rcases List.mem_map.mp hb with ⟨a, ha, rfl⟩
    by_cases hc : a.id = bid ∧ 0 < a.quantity
    · rw [if_pos hc]
      have := hc.2
      show (0:Int) ≤ a.quantity - 1
      omega
    · rw [if_neg hc]
      exact h a ha

/-- Return preserves non-negative quantities. -/
theorem return_book_preserves_nonneg (uid bid now : Nat) (s : DBState)
    (h : ∀ b ∈ s.books, 0 ≤ b.quantity) :
    ∀ b ∈ (return_book uid bid now s).1.books, 0 ≤ b.quantity := by
  rcases return_book_books_shape uid bid now s with he | he <;> rw [he]
  · exact h
  · intro b hb
    rcases List.mem_map.mp hb with ⟨a, ha, rfl⟩
    by_cases hc : a.id = bid
    · rw [if_pos hc]
      have := h a ha
      show (0:Int) ≤ a.quantity + 1
      omega
    · rw [if_neg hc]
      exact h a ha

/-- Book creation preserves non-negative quantities: the DDL check rejects a
negative insert. -/
theorem add_book_preserves_nonneg (t a : String) (q : Int) (s : DBState)
    (h : ∀ b ∈ s.books, 0 ≤ b.quantity) :
    ∀ b ∈ (add_book t a q s).1.books, 0 ≤ b.quantity := by
  unfold add_book
  by_cases hq : q < 0
  · rw [if_pos hq]
    exact h
  · rw [if_neg hq]
    intro b hb
    rcases List.mem_append.mp hb with hb | hb
    · exact h b hb
    · rcases List.mem_singleton.mp hb with rfl
      show (0:Int) ≤ q
      omega

/-- Book update preserves non-negative quantities: the DDL check rejects a
negative new value. -/
theorem update_book_preserves_nonneg (bid : Nat) (t? a? : Option String)
    (q? : Option Int) (s : DBState)
    (h : ∀ b ∈ s.books, 0 ≤ b.quantity) :
    ∀ b ∈ (update_book bid t? a? q? s).1.books, 0 ≤ b.quantity := by
  unfold update_book
  cases hfb : findBook bid s with
  | none => exact h
  | some bk =>
    dsimp only
    by_cases hempty : t? = none ∧ a? = none ∧ q? = none
    · rw [if_pos hempty]
      exact h
    · rw [if_neg hempty]
      by_cases hq : q?.getD bk.quantity < 0
      · rw [if_pos hq]
        exact h
      · rw [if_neg hq]
        intro b hb
        rcases List.mem_map.mp hb with ⟨a, ha, rfl⟩
        by_cases hc : a.id = bid
        · rw [if_pos hc]
          show (0:Int) ≤ q?.getD bk.quantity
          omega
        · rw [if_neg hc]
          exact h a ha

/-- Book deletion preserves non-negative quantities. -/
theorem delete_book_preserves_nonneg (bid : Nat) (s : DBState)
    (h : ∀ b ∈ s.books, 0 ≤ b.quantity) :
    ∀ b ∈ (delete_book bid s).1.books, 0 ≤ b.quantity := by
  unfold delete_book
  by_cases hc : (s.books.filter (fun b => decide (b.id = bid))).length = 0
  · rw [if_pos hc]
    exact h
  · rw [if_neg hc]
    intro b hb
    exact h b (List.mem_of_mem_filter hb)

/-- A map relates every element to its image. -/
theorem forall₂_map_self {α : Type} (f : α → α) (R : α → α → Prop)
    (h : ∀ a, R a (f a)) : ∀ l : List α, List.Forall₂ R l (l.map f)
  | [] => List.Forall₂.nil
  | a :: t => List.Forall₂.cons (h a) (forall₂_map_self f R h t)

/-- C2: in every reachable state every book's quantity is non-negative, and
a borrow either leaves a row's quantity unchanged or decrements it by 1 from
a strictly positive value. -/
theorem quantity_never_negative (s : DBState) (h : Reachable s) :
    (∀ b ∈ s.books, 0 ≤ b.quantity) ∧
    (∀ uid bid now, List.Forall₂
      (fun b b' => b'.quantity = b.quantity ∨
        (0 < b.quantity ∧ b'.quantity = b.quantity - 1))
      s.books (borrow_book uid bid now s).1.books) := by
  constructor
  · induction h with
    | init => decide
    | borrow uid bid now _ ih => exact borrow_book_preserves_nonneg uid bid now _ ih
    | ret uid bid now _ ih => exact return_book_preserves_nonneg uid bid now _ ih
    | create t a q _ ih => exact add_book_preserves_nonneg t a q _ ih
    | update bid t? a? q? _ ih => exact update_book_preserves_nonneg bid t? a? q? _ ih
    | del bid _ ih => exact delete_book_preserves_nonneg bid _ ih
  · intro uid bid now
    rcases borrow_book_books_shape uid bid now s with he | he <;> rw [he]
    · exact List.forall₂_same.mpr (fun b _ => Or.inl rfl)
    · apply forall₂_map_self
      intro a
      by_cases hc : a.id = bid ∧ 0 < a.quantity
      · rw [if_pos hc]
        right
        exact ⟨hc.2, rfl⟩
      · rw [if_neg hc]
        left
        rfl

/-- Witness for C2 at the initialized database. -/
theorem quantity_never_negative_witness :
    (∀ b ∈ initState.books, 0 ≤ b.quantity) ∧
    (∀ uid bid now, List.Forall₂
      (fun b b' => b'.quantity = b.quantity ∨
        (0 < b.quantity ∧ b'.quantity = b.quantity - 1))
      initState.books (borrow_book uid bid now initState).1.books) :=
  quantity_never_negative initState Reachable.init

/-- Recording a failure always increments the count by one, whether or not
the threshold is reached. -/
theorem recordFailure_failCount (b : Breaker) (now : Nat) :
    (recordFailure b now).failCount = b.failCount + 1 := by
  unfold recordFailure
  split <;> rfl

/-- C5: for a breaker configured with failure threshold 3 (the
`auth_breaker` configuration shape): three consecutive failing calls from
the closed state with zero failures open it; while open and inside the
cooldown any call is rejected without the operation being invoked; once
`reset_timeout` has elapsed since `opened_at` the call is let through as the
trial (and if that trial fails the breaker reopens with a fresh cooldown, so
exactly one trial runs per window); a successful trial closes the breaker
with the failure count reset to 0. -/
theorem breaker_threshold_trace_spec (rt oa t1 t2 t3 : Nat) :
    ((breakerCall (breakerCall (breakerCall ⟨3, rt, .closed, 0, oa⟩
        t1 false).breaker t2 false).breaker t3 false).breaker =
      ⟨3, rt, .opened, 3, t3⟩) ∧
    (∀ (b : Breaker) (now : Nat) (op : Bool),
      b.state = .opened → now < b.openedAt + b.resetTimeout →
      breakerCall b now op = ⟨b, .breakerOpenError, false⟩) ∧
    (∀ (b : Breaker) (now : Nat) (op : Bool),
      b.state = .opened → b.openedAt + b.resetTimeout ≤ now →
      (breakerCall b now op).invoked = true) ∧
    (∀ (b : Breaker) (now : Nat),
      b.state = .opened → b.openedAt + b.resetTimeout ≤ now →
      (breakerCall b now false).breaker.state = .opened ∧
      (breakerCall b now false).breaker.openedAt = now) ∧
    (∀ (b : Breaker) (now : Nat),
      b.state = .opened → b.openedAt + b.resetTimeout ≤ now →
      (breakerCall b now true).breaker.state = .closed ∧
      (breakerCall b now true).breaker.failCount = 0) := by
  refine ⟨?_, ?_, ?_, ?_, ?_⟩
  · simp [breakerCall, recordFailure]
  · intro b now op hs ht
    unfold breakerCall
    rw [hs]
    dsimp only
    rw [if_pos ht]
  · intro b now op hs ht
    unfold breakerCall
    rw [hs]
    dsimp only
    rw [if_neg (by omega)]
    cases op <;> rfl
  · intro b now hs ht
    unfold breakerCall
    rw [hs]
    dsimp only
    rw [if_neg (by omega)]
    exact ⟨rfl, rfl⟩
  · intro b now hs ht
    unfold breakerCall
    rw [hs]
    dsimp only
    rw [if_neg (by omega)]
    exact ⟨rfl, rfl⟩

/-- Witness for C5: the auth breaker opens after failures at times 10, 20,
30; at time 50 (inside the 45s cooldown) a call is rejected unchanged; at
time 80 a successful trial closes it with the count back at 0. -/
theorem breaker_threshold_trace_spec_witness :
    (breakerCall (breakerCall (breakerCall ⟨3, 45, .closed, 0, 0⟩
        10 false).breaker 20 false).breaker 30 false).breaker =
      ⟨3, 45, .opened, 3, 30⟩ ∧
    breakerCall ⟨3, 45, .opened, 3, 30⟩ 50 true =
      ⟨⟨3, 45, .opened, 3, 30⟩, .breakerOpenError, false⟩ ∧
    (breakerCall ⟨3, 45, .opened, 3, 30⟩ 80 true).breaker.state = .closed ∧
    (breakerCall ⟨3, 45, .opened, 3, 30⟩ 80 true).breaker.failCount = 0 := by
  have h := breaker_threshold_trace_spec 45 0 10 20 30
  refine ⟨h.1, h.2.1 ⟨3, 45, .opened, 3, 30⟩ 50 true rfl (by decide), ?_⟩
  exact h.2.2.2.2 ⟨3, 45, .opened, 3, 30⟩ 80 rfl (by decide)

/-- C6: a call hitting an open breaker inside its cooldown is rejected with
the dedicated breaker-open error kind, distinct from both outcomes of an
actually-invoked operation; the operation is not invoked and the breaker,
including its failure count, is left exactly as it was. -/
theorem open_breaker_rejection_spec (b : Breaker) (now : Nat) (op : Bool)
    (hs : b.state = .opened) (ht : now < b.openedAt + b.resetTimeout) :
    breakerCall b now op = ⟨b, .breakerOpenError, false⟩ ∧
    (breakerCall b now op).outcome ≠ .operationError ∧
    (breakerCall b now op).outcome ≠ .success ∧
    (breakerCall b now op).invoked = false ∧
    (breakerCall b now op).breaker.failCount = b.failCount := by
  have h : breakerCall b now op = ⟨b, .breakerOpenError, false⟩ := by
    unfold breakerCall
    rw [hs]
    dsimp only
    rw [if_pos ht]
  refine ⟨h, ?_, ?_, ?_, ?_⟩ <;> rw [h]
  · exact fun hc => nomatch hc
  · exact fun hc => nomatch hc

/-- Witness for C6 on a concrete open breaker inside its cooldown window. -/
theorem open_breaker_rejection_spec_witness :
    breakerCall ⟨3, 45, .opened, 2, 100⟩ 120 true =
      ⟨⟨3, 45, .opened, 2, 100⟩, .breakerOpenError, false⟩ ∧
    (breakerCall ⟨3, 45, .opened, 2, 100⟩ 120 true).breaker.failCount = 2 := by
  have h := open_breaker_rejection_spec ⟨3, 45, .opened, 2, 100⟩ 120 true
    rfl (by decide)
  exact ⟨h.1, h.2.2.2.2⟩

/-- C9: the breaker-status operation is served over GET and returns one
entry per registered breaker carrying its state and failure count, while
leaving every breaker untouched. -/
theorem breaker_status_readonly_spec :
    breakerStatusRouteMethod = .GET ∧
    ∀ r : BreakerRegistry,
      (get_breaker_status r).1 = r ∧
      (get_breaker_status r).2 =
        [("database", ⟨r.database.state, r.database.failCount⟩),
         ("redis", ⟨r.redis.state, r.redis.failCount⟩),
         ("authentication",
          ⟨r.authentication.state, r.authentication.failCount⟩),
         ("external_api",
          ⟨r.external_api.state, r.external_api.failCount⟩)] :=
  ⟨rfl, fun _ => ⟨rfl, rfl⟩⟩

/-- C10: an unrecognized breaker name does not make the decorator fail: the
name map falls back to the database breaker, so a failing guarded call under
such a name is counted against the database breaker's failure count and the
other three breakers are untouched. -/
theorem unknown_breaker_name_defaults_to_database (name : String)
    (h : name ∉ (["db", "redis", "auth", "external_api"] : List String)) :
    breaker_map_get name = .database ∧
    ∀ (r : BreakerRegistry) (now : Nat),
      r.database.state = .closed →
      ((circuit_breaker_check name r now false).1.database.failCount =
          r.database.failCount + 1 ∧
       (circuit_breaker_check name r now false).1.redis = r.redis ∧
       (circuit_breaker_check name r now false).1.authentication =
          r.authentication ∧
       (circuit_breaker_check name r now false).1.external_api =
          r.external_api) := by
  simp only [List.mem_cons, List.mem_singleton, not_or] at h
  obtain ⟨h1, h2, h3, h4⟩ := h
  have hmap : breaker_map_get name = .database := by
    unfold breaker_map_get
    rw [if_neg h1, if_neg h2, if_neg h3, if_neg (by simpa using h4)]
  refine ⟨hmap, ?_⟩
  intro r now hst
  have hcall : breakerCall r.database now false =
      ⟨recordFailure r.database now, .operationError, true⟩ := by
    unfold breakerCall
    rw [hst]
    dsimp only
    rw [if_neg (by decide)]
  unfold circuit_breaker_check
  rw [hmap]
  show ((r.put .database (breakerCall (r.get .database) now false).breaker).database.failCount = _ ∧ _)
  have hget : r.get .database = r.database := rfl
  rw [hget, hcall]
  exact ⟨recordFailure_failCount r.database now, rfl, rfl, rfl⟩

/-- Witness for C10: a call under the unknown name "legacy" against the
fresh registry bumps the database breaker's count from 0 to 1. -/
theorem unknown_breaker_name_defaults_to_database_witness :
    breaker_map_get "legacy" = .database ∧
    (circuit_breaker_check "legacy" initRegistry 0 false).1.database.failCount
      = 1 := by
  have h := unknown_breaker_name_defaults_to_database "legacy" (by decide)
  exact ⟨h.1, (h.2 initRegistry 0 rfl).1⟩

/-- A request that passes the gate (public path, or token validated) is
forwarded: the gateway reduces to the upstream hop on the constructed
outbound request. -/
theorem gateway_forwards (forward_url : String)
    (decode : String → TokenVerdict)
    (upstream : ForwardedRequest → UpstreamResult) (req : GatewayRequest)
    (hpass : req.path ∈ PUBLIC_PATHS ∨
      validate_jwt decode (headerGet req.headers "Authorization") =
        .ok true) :
    gateway forward_url decode upstream req =
      (match upstream ⟨forward_url ++ "/" ++ req.path, req.method,
          req.headers.filter (fun kv => kv.1.toLower != "host"),
          req.body, req.query⟩ with
       | .response st hs chunks =>
         (some ⟨forward_url ++ "/" ++ req.path, req.method,
            req.headers.filter (fun kv => kv.1.toLower != "host"),
            req.body, req.query⟩,
          ⟨st, hs.filter (fun kv => !excluded_headers.contains kv.1.toLower),
           .streamed chunks⟩)
       | .requestException m =>
         (some ⟨forward_url ++ "/" ++ req.path, req.method,
            req.headers.filter (fun kv => kv.1.toLower != "host"),
            req.body, req.query⟩,
          ⟨503, [], .upstreamConnectError m⟩)) := by
  unfold gateway
  dsimp only
  by_cases hp : req.path ∈ PUBLIC_PATHS
  · rw [if_pos hp]
  · rw [if_neg hp]
    rcases hpass with hpub | hok
    · exact absurd hpub hp
    · rw [hok]

/-- C7: requests to allow-listed public paths skip the token check and are
forwarded regardless of what the validator would say; for any other path, a
missing Authorization header or one without the Bearer prefix answers 401
token-invalid without contacting upstream, an expired token answers 401
token-expired without contacting upstream, any other invalid token answers
401 token-invalid without contacting upstream, and only a valid token lets
the request proceed to the upstream hop. -/
theorem gateway_auth_spec (forward_url : String)
    (decode : String → TokenVerdict)
    (upstream : ForwardedRequest → UpstreamResult) (req : GatewayRequest) :
    (req.path ∈ PUBLIC_PATHS →
      (gateway forward_url decode upstream req).1.isSome = true) ∧
    (req.path ∉ PUBLIC_PATHS →
      headerGet req.headers "Authorization" = none →
      gateway forward_url decode upstream req =
        (none, ⟨401, [],
          .tokenInvalid "Missing or malformed Authorization header"⟩)) ∧
    (∀ hdr : String, req.path ∉ PUBLIC_PATHS →
      headerGet req.headers "Authorization" = some hdr →
      startsWithBearer hdr = false →
      gateway forward_url decode upstream req =
        (none, ⟨401, [],
          .tokenInvalid "Missing or malformed Authorization header"⟩)) ∧
    (∀ (hdr m : String), req.path ∉ PUBLIC_PATHS →
      headerGet req.headers "Authorization" = some hdr →
      startsWithBearer hdr = true →
      decode ((hdr.splitOn " ").getD 1 "") = .expiredError m →
      gateway forward_url decode upstream req =
        (none, ⟨401, [], .tokenExpired m⟩)) ∧
    (∀ (hdr m : String), req.path ∉ PUBLIC_PATHS →
      headerGet req.headers "Authorization" = some hdr →
      startsWithBearer hdr = true →
      decode ((hdr.splitOn " ").getD 1 "") = .invalidError m →
      gateway forward_url decode upstream req =
        (none, ⟨401, [], .tokenInvalid m⟩)) ∧
    (∀ hdr : String, req.path ∉ PUBLIC_PATHS →
      headerGet req.headers "Authorization" = some hdr →
      startsWithBearer hdr = true →
      decode ((hdr.splitOn " ").getD 1 "") = .valid →
      (gateway forward_url decode upstream req).1.isSome = true) := by
  refine ⟨?_, ?_, ?_, ?_, ?_, ?_⟩
  · intro hp
    rw [gateway_forwards forward_url decode upstream req (Or.inl hp)]
    cases upstream ⟨forward_url ++ "/" ++ req.path, req.method,
        req.headers.filter (fun kv => kv.1.toLower != "host"),
        req.body, req.query⟩ <;> rfl
  · intro hp hhdr
    have hv : validate_jwt decode (headerGet req.headers "Authorization") =
        .error (.invalidToken "Missing or malformed Authorization header") := by
      rw [hhdr]
      rfl
    unfold gateway
    dsimp only
    rw [if_neg hp, hv]
  · intro hdr hp hhdr hpre
    have hv : validate_jwt decode (headerGet req.headers "Authorization") =
        .error (.invalidToken "Missing or malformed Authorization header") := by
      rw [hhdr]
      unfold validate_jwt
      dsimp only
      rw [if_neg (by simp [hpre])]
    unfold gateway
    dsimp only
    rw [if_neg hp, hv]
  · intro hdr m hp hhdr hpre hdec
    have hv : validate_jwt decode (headerGet req.headers "Authorization") =
        .error (.expiredSignature m) := by
      rw [hhdr]
      unfold validate_jwt
      dsimp only
      rw [if_pos hpre, hdec]
    unfold gateway
    dsimp only
    rw [if_neg hp, hv]
  · intro hdr m hp hhdr hpre hdec
    have hv : validate_jwt decode (headerGet req.headers "Authorization") =
        .error (.invalidToken m) := by
      rw [hhdr]
      unfold validate_jwt
      dsimp only
      rw [if_pos hpre, hdec]
    unfold gateway
    dsimp only
    rw [if_neg hp, hv]
  · intro hdr hp hhdr hpre hdec
    have hv : validate_jwt decode (headerGet req.headers "Authorization") =
        .ok true := by
      rw [hhdr]
      unfold validate_jwt
      dsimp only
      rw [if_pos hpre, hdec]
    rw [gateway_forwards forward_url decode upstream req (Or.inr hv)]
    cases upstream ⟨forward_url ++ "/" ++ req.path, req.method,
        req.headers.filter (fun kv => kv.1.toLower != "host"),
        req.body, req.query⟩ <;> rfl

/-- A token validator that accepts every token. -/
def decodeStubValid : String → TokenVerdict := fun _ => .valid

/-- A token validator for which every token has expired. -/
def decodeStubExpired : String → TokenVerdict := fun _ => .expiredError "exp"

/-- A token validator for which every token has a bad signature. -/
def decodeStubInvalid : String → TokenVerdict := fun _ => .invalidError "bad"

/-- An upstream that answers 201 with one excluded and one ordinary header. -/
def upstreamStub : ForwardedRequest → UpstreamResult :=
  fun _ => .response 201 [("content-length", "10"), ("x-extra", "1")] ["hi"]

/-- An upstream that cannot be reached. -/
def upstreamFailStub : ForwardedRequest → UpstreamResult :=
  fun _ => .requestException "timeout"

/-- Witness for C7: with a protected path, an all-expiring validator yields
401 token-expired without an upstream request; a missing header yields 401
token-invalid without an upstream request; with a valid token the request
reaches upstream. -/
theorem gateway_auth_spec_witness :
    gateway "http://app:5000" decodeStubExpired upstreamStub
      ⟨"api/v1/books", .GET, [("Authorization", "Bearer t")], [], ""⟩ =
      (none, ⟨401, [], .tokenExpired "exp"⟩) ∧
    gateway "http://app:5000" decodeStubInvalid upstreamStub
      ⟨"api/v1/books", .GET, [], [], ""⟩ =
      (none, ⟨401, [],
        .tokenInvalid "Missing or malformed Authorization header"⟩) ∧
    (gateway "http://app:5000" decodeStubValid upstreamStub
      ⟨"api/v1/books", .GET, [("Authorization", "Bearer t")], [], ""⟩).1.isSome
      = true := by
  refine ⟨?_, ?_, ?_⟩
  · exact (gateway_auth_spec "http://app:5000" decodeStubExpired upstreamStub
      ⟨"api/v1/books", .GET, [("Authorization", "Bearer t")], [], ""⟩).2.2.2.1
      "Bearer t" "exp" (by decide) (by decide) (by decide) rfl
  · exact (gateway_auth_spec "http://app:5000" decodeStubInvalid upstreamStub
      ⟨"api/v1/books", .GET, [], [], ""⟩).2.1 (by decide) (by decide)
  · exact (gateway_auth_spec "http://app:5000" decodeStubValid upstreamStub
      ⟨"api/v1/books", .GET, [("Authorization", "Bearer t")], [], ""⟩).2.2.2.2.2
      "Bearer t" (by decide) (by decide) (by decide) rfl

/-- C8: every forwarded request targets the configured base URL concatenated
with the request path, with the query parameters passed through unchanged;
the upstream status code is copied verbatim; the four transport-framing
headers are excluded from the copied response headers; and a connection
failure or timeout on the upstream hop answers 503 with the structured
connection error. -/
theorem gateway_forwarding_spec (forward_url : String)
    (decode : String → TokenVerdict)
    (upstream : ForwardedRequest → UpstreamResult) (req : GatewayRequest)
    (hpass : req.path ∈ PUBLIC_PATHS ∨
      validate_jwt decode (headerGet req.headers "Authorization") =
        .ok true) :
    ∃ fwd : ForwardedRequest,
      (gateway forward_url decode upstream req).1 = some fwd ∧
      fwd.url = forward_url ++ "/" ++ req.path ∧
      fwd.params = req.query ∧
      fwd.method = req.method ∧
      fwd.data = req.body ∧
      (∀ st hs chunks, upstream fwd = .response st hs chunks →
        (gateway forward_url decode upstream req).2 =
          ⟨st, hs.filter (fun kv => !excluded_headers.contains kv.1.toLower),
           .streamed chunks⟩ ∧
        ∀ kv ∈ (gateway forward_url decode upstream req).2.headers,
          kv.1.toLower ∉ excluded_headers) ∧
      (∀ m, upstream fwd = .requestException m →
        (gateway forward_url decode upstream req).2 =
          ⟨503, [], .upstreamConnectError m⟩) := by
  have hmain := gateway_forwards forward_url decode upstream req hpass
  refine ⟨⟨forward_url ++ "/" ++ req.path, req.method,
    req.headers.filter (fun kv => kv.1.toLower != "host"),
    req.body, req.query⟩, ?_, rfl, rfl, rfl, rfl, ?_, ?_⟩
  · rw [hmain]
    cases upstream ⟨forward_url ++ "/" ++ req.path, req.method,
        req.headers.filter (fun kv => kv.1.toLower != "host"),
        req.body, req.query⟩ <;> rfl
  · intro st hs chunks hup
    rw [hmain, hup]
    refine ⟨rfl, ?_⟩
    intro kv hkv
    have := (List.mem_filter.mp hkv).2
    simpa using this
  · intro m hup
    rw [hmain, hup]

/-- Witness for C8: a public-path request reaches upstream at the
concatenated URL with its query preserved, and against an unreachable
upstream the same request answers 503. -/
theorem gateway_forwarding_spec_witness :
    (∃ fwd : ForwardedRequest,
      (gateway "http://app:5000" decodeStubInvalid upstreamStub
        ⟨"health", .GET, [], [("a", "b")], ""⟩).1 = some fwd ∧
      fwd.url = "http://app:5000/health" ∧
      fwd.params = [("a", "b")]) ∧
    (gateway "http://app:5000" decodeStubInvalid upstreamFailStub
      ⟨"health", .GET, [], [("a", "b")], ""⟩).2 =
      ⟨503, [], .upstreamConnectError "timeout"⟩ := by
  constructor
  · obtain ⟨fwd, h1, h2, h3, _⟩ := gateway_forwarding_spec "http://app:5000"
      decodeStubInvalid upstreamStub ⟨"health", .GET, [], [("a", "b")], ""⟩
      (Or.inl (by decide))
    exact ⟨fwd, h1, h2, h3⟩
  · obtain ⟨fwd, h1, h2, h3, h4, h5, h6, h7⟩ := gateway_forwarding_spec
      "http://app:5000" decodeStubInvalid upstreamFailStub
      ⟨"health", .GET, [], [("a", "b")], ""⟩ (Or.inl (by decide))
    exact h7 "timeout" rfl
